import Mathlib

/-
Shallow embedding of the Visual Behavior Neuropixels project-cache client of
the AllenSDK repository:

  * allensdk/brain_observatory/behavior/behavior_project_cache/project_apis/
    data_io/behavior_ecephys_project_cloud_api.py
  * allensdk/brain_observatory/behavior/behavior_project_cache/
    behavior_ecephys_project_cache.py

External collaborators (the generic cloud-cache classes `S3CloudCache` /
`LocalCache`, `pandas` CSV parsing, NWB session construction, the `semver`
parsing library) are modelled as oracles: records of functions and values
standing for whatever those collaborators return.  Python exceptions are
modelled with `Except`, where the error value carries the data interpolated
into the exception message.
-/

namespace AllenSDK

/-- Semantic version, as produced by `semver.VersionInfo.parse` on a
`MAJOR.MINOR.PATCH` string (the parsing itself is the external `semver`
library; versions are embedded already parsed). -/
structure SemVer where
  major : Nat
  minor : Nat
  patch : Nat
deriving DecidableEq, Repr

/-- Strict semver precedence on plain `MAJOR.MINOR.PATCH` versions:
lexicographic comparison of the three numeric components. -/
def SemVer.lt (a b : SemVer) : Bool :=
  a.major < b.major ||
    (a.major == b.major &&
      (a.minor < b.minor || (a.minor == b.minor && a.patch < b.patch)))

/-- MANIFEST_COMPATIBILITY = ["0.1.0", "1.0.0"], parsed.
The source comment reads: [min inclusive, max exclusive). -/
def MANIFEST_COMPATIBILITY : SemVer × SemVer :=
  (⟨0, 1, 0⟩, ⟨1, 0, 0⟩)

/-- BehaviorCloudCacheVersionException: the exception raised by
`version_check`.  Its message interpolates the manifest version, the
compatibility bounds and the data-pipeline version; the record carries
exactly those four pieces of data. -/
structure BehaviorCloudCacheVersionException where
  manifest_version : SemVer
  cmin : SemVer
  cmax : SemVer
  data_pipeline_version : String
deriving DecidableEq, Repr

/-- version_check(manifest_version, data_pipeline_version, cmin, cmax):
raises BehaviorCloudCacheVersionException when
(mver < cmin) | (mver >= cmax).  The source gives `cmin`/`cmax` default
values MANIFEST_COMPATIBILITY[0]/[1]; callers here pass them explicitly. -/
def version_check (manifest_version : SemVer) (data_pipeline_version : String)
    (cmin : SemVer) (cmax : SemVer) :
    Except BehaviorCloudCacheVersionException Unit :=
  if manifest_version.lt cmin || !(manifest_version.lt cmax) then
    .error ⟨manifest_version, cmin, cmax, data_pipeline_version⟩
  else
    .ok ()

/-- One entry of a manifest's `_data_pipeline` list: a dict with at least a
`name` and a `version` key. -/
structure PipelineEntry where
  name : String
  version : String
deriving DecidableEq, Repr

/-- The manifest held by the cloud cache after the cache-level load
(`cache._manifest`): its semantic version, the declared metadata file
names (`None` when the cache never ran `load_manifest`), and the
data-pipeline list. -/
structure Manifest where
  version : SemVer
  metadata_file_names : Option (List String)
  data_pipeline : List PipelineEntry
deriving DecidableEq, Repr

/-- Resolution of one logical key against local storage: the dict
`{'exists': bool, 'local_path': path}` returned by the cache's
`metadata_path` / `data_path` methods. -/
structure PathResult where
  exists_ : Bool
  local_path : String
deriving DecidableEq, Repr

/-- Oracle model of the external cloud-cache object (`S3CloudCache`,
`LocalCache` or `StaticLocalCache`): the attributes and methods the client
code under verification consumes.  `manifest_for none` is the manifest
loaded by `load_last_manifest()`; `manifest_for (some n)` the one loaded by
`load_manifest(n)`. -/
structure CloudCache where
  file_id_column : String
  metadata_path : String → PathResult
  data_path : String → PathResult
  download_metadata : String → String
  download_data : String → String
  manifest_for : Option String → Manifest
  manifest_file_names : List String
  latest_downloaded_manifest_file : String
  latest_manifest_file : String
  list_all_downloaded_manifests : List String
  compare_manifests_fn : String → String → String
  current_manifest : Option String

/-- Row of the behavior-session table (indexed by `behavior_session_id`);
only the columns the client reads are modelled. -/
structure BehaviorRow where
  behavior_session_id : Int
  ecephys_session_id : Int
deriving DecidableEq, Repr

/-- Row of the ecephys-session table (indexed by `ecephys_session_id`).
`file_id` holds the value of the column named by `cache.file_id_column`. -/
structure EcephysRow where
  ecephys_session_id : Int
  file_id : Int
deriving DecidableEq, Repr

/-- BehaviorSession: external scientific object, constructed only through
`BehaviorSession.from_nwb_path`; modelled by the resolved path it was
constructed from. -/
structure BehaviorSession where
  nwb_path : String
deriving DecidableEq, Repr

/-- BehaviorSession.from_nwb_path (external collaborator constructor). -/
def BehaviorSession.from_nwb_path (path : String) : BehaviorSession :=
  ⟨path⟩

/-- BehaviorEcephysSession: external scientific object, constructed only
through `BehaviorEcephysSession.from_nwb_path`. -/
structure BehaviorEcephysSession where
  nwb_path : String
deriving DecidableEq, Repr

/-- BehaviorEcephysSession.from_nwb_path (external constructor). -/
def BehaviorEcephysSession.from_nwb_path (path : String) :
    BehaviorEcephysSession :=
  ⟨path⟩

/-- Errors raised by the cloud-api methods.  Each constructor carries the
data interpolated into the corresponding Python exception message. -/
inductive ApiError where
  /-- ValueError with the given message (argument-validation failures of
  `_get_local_path`). -/
  | valueError (msg : String)
  /-- FileNotFoundError: "You started a cache without a connection to s3
  and {local_path} is not already on your system". -/
  | fileNotFound (local_path : String)
  /-- RuntimeError: "The {table} should have 1 and only 1 entry for a given
  id. For {id} there are {count} entries."  (the spec's IntegrityError). -/
  | integrityError (table : String) (id : Int) (count : Nat)
  /-- TypeError from `int(series)` when the ecephys-table lookup inside
  `get_behavior_session` matches a number of rows different from one. -/
  | intCastError (count : Nat)
  /-- AttributeError (only ever produced by external fetch-api oracles,
  e.g. a `None` fetch_api). -/
  | attributeError
deriving DecidableEq, Repr

/-- State of a `BehaviorEcephysProjectCloudApi` object: the cache oracle,
the two configuration flags, and the metadata tables materialized by
`load_manifest` (the CSV parsing that produced the structured tables is the
external `pandas.read_csv`). -/
structure BehaviorEcephysProjectCloudApi where
  cache : CloudCache
  skip_version_check : Bool
  isLocal : Bool
  behavior_session_table : List BehaviorRow
  ecephys_session_table : List EcephysRow
  probe_table : List (List String)
  unit_table : List (List String)
  channel_table : List (List String)

namespace BehaviorEcephysProjectCloudApi

/-- Resolution of a local path, `_get_local_path(fname, file_id)`:
validates that exactly one of the two arguments is supplied, resolves the
corresponding path record, and fails with FileNotFoundError when the
record says the file is absent. -/
def get_local_path (cache : CloudCache)
    (fname : Option String) (file_id : Option String) :
    Except ApiError String :=
  match fname, file_id with
  | none, none => .error (.valueError "Must pass either fname or file_id")
  | some _, some _ =>
      .error (.valueError "Must pass only one of fname or file_id")
  | some f, none =>
      let p := cache.metadata_path f
      if p.exists_ then .ok p.local_path
      else .error (.fileNotFound p.local_path)
  | none, some fid =>
      let p := cache.data_path fid
      if p.exists_ then .ok p.local_path
      else .error (.fileNotFound p.local_path)

/-- `_get_metadata_path(fname)`: local mode resolves through
`_get_local_path`; cloud mode downloads. -/
def get_metadata_path (cache : CloudCache) (isLocal : Bool) (fname : String) :
    Except ApiError String :=
  if isLocal then
    get_local_path cache (some fname) none
  else
    .ok (cache.download_metadata fname)

/-- `_get_data_path(file_id)`: local mode resolves through
`_get_local_path`; cloud mode downloads. -/
def get_data_path (cache : CloudCache) (isLocal : Bool) (file_id : String) :
    Except ApiError String :=
  if isLocal then
    get_local_path cache none (some file_id)
  else
    .ok (cache.download_data file_id)

/-- The fixed expected metadata categories of `load_manifest`. -/
def expected_metadata : List String :=
  ["behavior_sessions", "sessions", "probes", "units", "channels"]

/-- Python set equality of two lists of strings (order and multiplicity
ignored), as in `set(a) == set(b)`. -/
def sameSet (a b : List String) : Bool :=
  a.all (fun x => b.contains x) && b.all (fun x => a.contains x)

/-- Errors raised by `load_manifest`. -/
inductive LoadError where
  /-- RuntimeError: "S3CloudCache object has no metadata file names ...". -/
  | runtimeNoMetadata
  /-- RuntimeError: "expected S3CloudCache object to have metadata file
  names: {expected} but it has {actual}". -/
  | runtimeWrongMetadata (expected : List String) (actual : List String)
  /-- IndexError from `[i for i in data_pipeline if i['name'] ==
  "AllenSDK"][0]` when no entry is named AllenSDK. -/
  | indexError
  /-- The BehaviorCloudCacheVersionException raised by `version_check`. -/
  | versionMismatch (e : BehaviorCloudCacheVersionException)
  /-- Failure while resolving one of the five metadata paths. -/
  | resolveError (e : ApiError)
deriving DecidableEq, Repr

/-- The five metadata paths resolved by `load_manifest`, in the order the
source resolves them (sessions, behavior_sessions, units, probes,
channels); `pandas.read_csv` on each path is external. -/
structure MetadataPaths where
  sessions : String
  behavior_sessions : String
  units : String
  probes : String
  channels : String
deriving DecidableEq, Repr

/-- `load_manifest(manifest_name)` of BehaviorEcephysProjectCloudApi:
the cache loads the named (or the last) manifest, then the client
re-validates it - metadata file names must be declared and equal the fixed
five-category set, and `version_check` runs unless skipped - and finally
resolves the five metadata table paths. -/
def load_manifest (cache : CloudCache) (skip_version_check : Bool)
    (isLocal : Bool) (manifest_name : Option String) :
    Except LoadError MetadataPaths :=
  let m := cache.manifest_for manifest_name
  match m.metadata_file_names with
  | none => .error .runtimeNoMetadata
  | some names =>
    if !sameSet names expected_metadata then
      .error (.runtimeWrongMetadata expected_metadata names)
    else
      let vres : Except LoadError Unit :=
        if !skip_version_check then
          match m.data_pipeline.filter (fun i => i.name == "AllenSDK") with
          | [] => .error .indexError
          | e :: _ =>
            match version_check m.version e.version
                MANIFEST_COMPATIBILITY.1 MANIFEST_COMPATIBILITY.2 with
            | .error ex => .error (.versionMismatch ex)
            | .ok _ => .ok ()
        else .ok ()
      match vres with
      | .error e => .error e
      | .ok _ =>
        match get_metadata_path cache isLocal "sessions" with
        | .error e => .error (.resolveError e)
        | .ok sessions =>
          match get_metadata_path cache isLocal "behavior_sessions" with
          | .error e => .error (.resolveError e)
          | .ok behavior =>
            match get_metadata_path cache isLocal "units" with
            | .error e => .error (.resolveError e)
            | .ok units =>
              match get_metadata_path cache isLocal "probes" with
              | .error e => .error (.resolveError e)
              | .ok probes =>
                match get_metadata_path cache isLocal "channels" with
                | .error e => .error (.resolveError e)
                | .ok channels =>
                    .ok ⟨sessions, behavior, units, probes, channels⟩

/-- Rows of the behavior-session table matching a given
`behavior_session_id` (the pandas
`query(f"behavior_session_id=={behavior_session_id}")`). -/
def behaviorRows (api : BehaviorEcephysProjectCloudApi)
    (behavior_session_id : Int) : List BehaviorRow :=
  api.behavior_session_table.filter
    (fun r => r.behavior_session_id == behavior_session_id)

/-- Rows of the ecephys-session table matching a given index value (the
pandas `query(f"index=={ecephys_session_id}")`). -/
def ecephysRows (api : BehaviorEcephysProjectCloudApi)
    (ecephys_session_id : Int) : List EcephysRow :=
  api.ecephys_session_table.filter
    (fun r => r.ecephys_session_id == ecephys_session_id)

/-- `get_behavior_session(behavior_session_id)`: look up the row in the
behavior-session table (RuntimeError when the match count differs from
one), join into the ecephys-session table through that row's
`ecephys_session_id`, read the `file_id` column (a `TypeError` from
`int(...)` when that second lookup is not a single row), resolve the data
path and construct the session. -/
def get_behavior_session (api : BehaviorEcephysProjectCloudApi)
    (behavior_session_id : Int) : Except ApiError BehaviorSession :=
  match api.behaviorRows behavior_session_id with
  | [row] =>
    let esid := row.ecephys_session_id
    match api.ecephysRows esid with
    | [erow] =>
      let file_id := toString erow.file_id
      match get_data_path api.cache api.isLocal file_id with
      | .ok data_path => .ok (BehaviorSession.from_nwb_path data_path)
      | .error e => .error e
    | other => .error (.intCastError other.length)
  | rows =>
      .error (.integrityError "behavior_session_table" behavior_session_id
        rows.length)

/-- `get_ecephys_session(ecephys_session_id)`: look up the row in the
ecephys-session table (RuntimeError when the match count differs from
one), read its `file_id` column, resolve the data path and construct the
session. -/
def get_ecephys_session (api : BehaviorEcephysProjectCloudApi)
    (ecephys_session_id : Int) : Except ApiError BehaviorEcephysSession :=
  match api.ecephysRows ecephys_session_id with
  | [row] =>
    let file_id := toString row.file_id
    match get_data_path api.cache api.isLocal file_id with
    | .ok data_path => .ok (BehaviorEcephysSession.from_nwb_path data_path)
    | .error e => .error e
  | rows =>
      .error (.integrityError "behavior_ecephys_session_table"
        ecephys_session_id rows.length)

/-- `get_ecephys_session_table()`: returns the stored dataframe. -/
def get_ecephys_session_table (api : BehaviorEcephysProjectCloudApi) :
    List EcephysRow :=
  api.ecephys_session_table

/-- `get_behavior_session_table()`: returns the stored dataframe. -/
def get_behavior_session_table (api : BehaviorEcephysProjectCloudApi) :
    List BehaviorRow :=
  api.behavior_session_table

/-- `get_probe_table()`: returns the stored dataframe. -/
def get_probe_table (api : BehaviorEcephysProjectCloudApi) :
    List (List String) :=
  api.probe_table

/-- `get_unit_table()`: returns the stored dataframe. -/
def get_unit_table (api : BehaviorEcephysProjectCloudApi) :
    List (List String) :=
  api.unit_table

/-- `get_channel_table()`: returns the stored dataframe. -/
def get_channel_table (api : BehaviorEcephysProjectCloudApi) :
    List (List String) :=
  api.channel_table

end BehaviorEcephysProjectCloudApi

/-- A fetch_api that is not an instance of BehaviorEcephysProjectCloudApi
(for example the default `None`, or a LIMS-based api).  Its type name and
the outcome of each method the facade may forward to it are oracles: the
code of such a backend is outside this repository's client surface. -/
structure ExternalFetchApi where
  typeName : String
  ext_get_ecephys_session : Int → Except ApiError BehaviorEcephysSession
  ext_get_behavior_session : Int → Except ApiError BehaviorSession
  ext_get_ecephys_session_table : Except ApiError (List EcephysRow)
  ext_get_behavior_session_table : Except ApiError (List BehaviorRow)
  ext_get_probe_table : Except ApiError (List (List String))
  ext_get_unit_table : Except ApiError (List (List String))
  ext_get_channel_table : Except ApiError (List (List String))

/-- The `fetch_api` attribute of the facade: either a
BehaviorEcephysProjectCloudApi instance or anything else (modelled by an
ExternalFetchApi oracle).  `isinstance(fetch_api,
BehaviorEcephysProjectCloudApi)` is the match on this sum. -/
inductive FetchApi where
  | cloudApi (api : BehaviorEcephysProjectCloudApi)
  | externalApi (ext : ExternalFetchApi)

/-- `type(self.fetch_api).__name__`. -/
def FetchApi.typeName : FetchApi → String
  | .cloudApi _ => "BehaviorEcephysProjectCloudApi"
  | .externalApi ext => ext.typeName

/-- Method dispatch `fetch_api.get_ecephys_session(id)`. -/
def FetchApi.get_ecephys_session :
    FetchApi → Int → Except ApiError BehaviorEcephysSession
  | .cloudApi api, i => api.get_ecephys_session i
  | .externalApi ext, i => ext.ext_get_ecephys_session i

/-- Method dispatch `fetch_api.get_behavior_session(id)`. -/
def FetchApi.get_behavior_session :
    FetchApi → Int → Except ApiError BehaviorSession
  | .cloudApi api, i => api.get_behavior_session i
  | .externalApi ext, i => ext.ext_get_behavior_session i

/-- Method dispatch `fetch_api.get_ecephys_session_table()`. -/
def FetchApi.get_ecephys_session_table :
    FetchApi → Except ApiError (List EcephysRow)
  | .cloudApi api => .ok api.get_ecephys_session_table
  | .externalApi ext => ext.ext_get_ecephys_session_table

/-- Method dispatch `fetch_api.get_behavior_session_table()`. -/
def FetchApi.get_behavior_session_table :
    FetchApi → Except ApiError (List BehaviorRow)
  | .cloudApi api => .ok api.get_behavior_session_table
  | .externalApi ext => ext.ext_get_behavior_session_table

/-- Method dispatch `fetch_api.get_probe_table()`. -/
def FetchApi.get_probe_table :
    FetchApi → Except ApiError (List (List String))
  | .cloudApi api => .ok api.get_probe_table
  | .externalApi ext => ext.ext_get_probe_table

/-- Method dispatch `fetch_api.get_unit_table()`. -/
def FetchApi.get_unit_table :
    FetchApi → Except ApiError (List (List String))
  | .cloudApi api => .ok api.get_unit_table
  | .externalApi ext => ext.ext_get_unit_table

/-- Method dispatch `fetch_api.get_channel_table()`. -/
def FetchApi.get_channel_table :
    FetchApi → Except ApiError (List (List String))
  | .cloudApi api => .ok api.get_channel_table
  | .externalApi ext => ext.ext_get_channel_table

/-- Modelled from the spec: `call_caching` lives in
`allensdk.api.warehouse_cache.caching_utilities`, which is not among the
source files of this excerpt.  Per the spec it is a caching wrapper that
would persist the producer's result, but when configured with writing
disabled and laziness disabled it reduces to calling the producer
directly: with `lazy = false` it calls `fetch`, passes the result through
`write`, and returns the result of `read` when a `read` is supplied. -/
def call_caching {ε α : Type} (fetch : Unit → Except ε α) (write : α → α)
    (lazy : Bool) (read : Option (Unit → Except ε α)) : Except ε α :=
  match lazy, read with
  | true, some r => r ()
  | _, _ =>
    match fetch () with
    | .error e => .error e
    | .ok d =>
      let d := write d
      match read with
      | some r => r ()
      | none => .ok d

/-- Python's `None` versus a one-element tuple `(x,)`: the two shapes a
facade table accessor can return. -/
inductive PyReturn (α : Type) where
  | tuple1 (x : α)
  | pyNone
deriving DecidableEq, Repr

/-- Errors surfaced by the facade. -/
inductive FacadeError where
  /-- NotImplementedError: "Method {method} does not exist for this
  VisualBehaviorEcephysProjectCache, which is based on {backendType}". -/
  | notImplemented (method : String) (backendType : String)
  /-- An error propagated from the fetch api. -/
  | apiError (e : ApiError)
  /-- An error propagated from the fetch api's `load_manifest`. -/
  | loadError (e : BehaviorEcephysProjectCloudApi.LoadError)
deriving DecidableEq, Repr

/-- State of a `VisualBehaviorEcephysProjectCache` facade: its `fetch_api`
and the `fetch_tries` count stored by `__init__` (default 2). -/
structure VisualBehaviorEcephysProjectCache where
  fetch_api : FetchApi
  fetch_tries : Nat

namespace VisualBehaviorEcephysProjectCache

/-- `construct_local_manifest()`: isinstance-guarded; forwards to the
cache's `construct_local_manifest()` (an external side effect returning
`None`). -/
def construct_local_manifest (c : VisualBehaviorEcephysProjectCache) :
    Except FacadeError Unit :=
  match c.fetch_api with
  | .cloudApi _ => .ok ()
  | .externalApi ext =>
      .error (.notImplemented "construct_local_manifest" ext.typeName)

/-- `compare_manifests(m0, m1)`: isinstance-guarded; forwards to the
cache. -/
def compare_manifests (c : VisualBehaviorEcephysProjectCache)
    (manifest_0_name : String) (manifest_1_name : String) :
    Except FacadeError String :=
  match c.fetch_api with
  | .cloudApi api =>
      .ok (api.cache.compare_manifests_fn manifest_0_name manifest_1_name)
  | .externalApi ext =>
      .error (.notImplemented "compare_manifests" ext.typeName)

/-- `load_latest_manifest()`: isinstance-guarded; forwards to the cache
(an external side effect returning `None`). -/
def load_latest_manifest (c : VisualBehaviorEcephysProjectCache) :
    Except FacadeError Unit :=
  match c.fetch_api with
  | .cloudApi _ => .ok ()
  | .externalApi ext =>
      .error (.notImplemented "load_latest_manifest" ext.typeName)

/-- `latest_downloaded_manifest_file()`: isinstance-guarded; returns the
cache attribute. -/
def latest_downloaded_manifest_file
    (c : VisualBehaviorEcephysProjectCache) : Except FacadeError String :=
  match c.fetch_api with
  | .cloudApi api => .ok api.cache.latest_downloaded_manifest_file
  | .externalApi ext =>
      .error (.notImplemented "latest_downloaded_manifest_file" ext.typeName)

/-- `latest_manifest_file()`: isinstance-guarded; returns the cache
attribute. -/
def latest_manifest_file (c : VisualBehaviorEcephysProjectCache) :
    Except FacadeError String :=
  match c.fetch_api with
  | .cloudApi api => .ok api.cache.latest_manifest_file
  | .externalApi ext =>
      .error (.notImplemented "latest_manifest_file" ext.typeName)

/-- `load_manifest(manifest_name)`: isinstance-guarded; forwards to the
fetch api's `load_manifest` (which returns `None`; failures propagate). -/
def load_manifest (c : VisualBehaviorEcephysProjectCache)
    (manifest_name : String) : Except FacadeError Unit :=
  match c.fetch_api with
  | .cloudApi api =>
      match BehaviorEcephysProjectCloudApi.load_manifest api.cache
          api.skip_version_check api.isLocal (some manifest_name) with
      | .ok _ => .ok ()
      | .error e => .error (.loadError e)
  | .externalApi ext =>
      .error (.notImplemented "load_manifest" ext.typeName)

/-- `list_all_downloaded_manifests()`: isinstance-guarded; forwards to the
cache. -/
def list_all_downloaded_manifests
    (c : VisualBehaviorEcephysProjectCache) :
    Except FacadeError (List String) :=
  match c.fetch_api with
  | .cloudApi api => .ok api.cache.list_all_downloaded_manifests
  | .externalApi ext =>
      .error (.notImplemented "list_all_downloaded_manifests" ext.typeName)

/-- `list_manifest_file_names()`: isinstance-guarded; returns the cache
attribute. -/
def list_manifest_file_names (c : VisualBehaviorEcephysProjectCache) :
    Except FacadeError (List String) :=
  match c.fetch_api with
  | .cloudApi api => .ok api.cache.manifest_file_names
  | .externalApi ext =>
      .error (.notImplemented "list_manifest_file_names" ext.typeName)

/-- `current_manifest()`: isinstance-guarded; returns the cache
attribute. -/
def current_manifest (c : VisualBehaviorEcephysProjectCache) :
    Except FacadeError (Option String) :=
  match c.fetch_api with
  | .cloudApi api => .ok api.cache.current_manifest
  | .externalApi ext =>
      .error (.notImplemented "current_manifest" ext.typeName)

/-- Facade `get_ecephys_session_table()`: `return
self.fetch_api.get_ecephys_session_table(),` - the trailing comma makes
the return value a one-element tuple. -/
def get_ecephys_session_table (c : VisualBehaviorEcephysProjectCache) :
    Except ApiError (PyReturn (List EcephysRow)) :=
  (c.fetch_api.get_ecephys_session_table).map PyReturn.tuple1

/-- Facade `get_behavior_session_table()`: returns a one-element tuple. -/
def get_behavior_session_table (c : VisualBehaviorEcephysProjectCache) :
    Except ApiError (PyReturn (List BehaviorRow)) :=
  (c.fetch_api.get_behavior_session_table).map PyReturn.tuple1

/-- Facade `get_probe_table()`: the body is the bare expression statement
`self.fetch_api.get_probe_table(),` with no `return`, so the method calls
the fetch api (errors propagate) and returns `None`, discarding the
table. -/
def get_probe_table (c : VisualBehaviorEcephysProjectCache) :
    Except ApiError (PyReturn (List (List String))) :=
  (c.fetch_api.get_probe_table).map (fun _ => PyReturn.pyNone)

/-- Facade `get_channel_table()`: returns a one-element tuple. -/
def get_channel_table (c : VisualBehaviorEcephysProjectCache) :
    Except ApiError (PyReturn (List (List String))) :=
  (c.fetch_api.get_channel_table).map PyReturn.tuple1

/-- Facade `get_unit_table()`: returns a one-element tuple. -/
def get_unit_table (c : VisualBehaviorEcephysProjectCache) :
    Except ApiError (PyReturn (List (List String))) :=
  (c.fetch_api.get_unit_table).map PyReturn.tuple1

/-- Facade `get_ecephys_session(id)`: wraps
`partial(self.fetch_api.get_ecephys_session, id)` in `call_caching` with
an identity write, `lazy=False` and the same partial as `read`.  Note the
call passes no tries count: `self.fetch_tries` is never consulted. -/
def get_ecephys_session (c : VisualBehaviorEcephysProjectCache)
    (ecephys_session_id : Int) : Except ApiError BehaviorEcephysSession :=
  let fetch_session := fun (_ : Unit) =>
    c.fetch_api.get_ecephys_session ecephys_session_id
  call_caching fetch_session (fun x => x) false (some fetch_session)

/-- Facade `get_behavior_session(id)`: same `call_caching` wiring as
`get_ecephys_session`. -/
def get_behavior_session (c : VisualBehaviorEcephysProjectCache)
    (behavior_session_id : Int) : Except ApiError BehaviorSession :=
  let fetch_session := fun (_ : Unit) =>
    c.fetch_api.get_behavior_session behavior_session_id
  call_caching fetch_session (fun x => x) false (some fetch_session)

end VisualBehaviorEcephysProjectCache

/-
Concrete fixtures used to evaluate the definitions at specific inputs.
-/

/-- A manifest at the inclusive lower compatibility bound 0.1.0, declaring
exactly the five expected metadata categories. -/
def manifestMin : Manifest :=
  ⟨⟨0, 1, 0⟩, some BehaviorEcephysProjectCloudApi.expected_metadata,
    [⟨"AllenSDK", "2.13.2"⟩]⟩

/-- A manifest at the exclusive upper compatibility bound 1.0.0. -/
def manifestMax : Manifest :=
  ⟨⟨1, 0, 0⟩, some BehaviorEcephysProjectCloudApi.expected_metadata,
    [⟨"AllenSDK", "2.13.2"⟩]⟩

/-- A manifest with a compatible version but a missing `channels`
category. -/
def manifestBad : Manifest :=
  ⟨⟨0, 2, 0⟩, some ["behavior_sessions", "sessions", "probes", "units"],
    [⟨"AllenSDK", "2.13.2"⟩]⟩

/-- A concrete cache oracle whose local files all exist; `manifest_for`
serves `manifestMax` under the name "max", `manifestBad` under "bad" and
`manifestMin` otherwise. -/
def cacheW : CloudCache where
  file_id_column := "file_id"
  metadata_path := fun f => ⟨true, "local/" ++ f⟩
  data_path := fun fid => ⟨true, "data/" ++ fid⟩
  download_metadata := fun f => "dl/" ++ f
  download_data := fun fid => "dldata/" ++ fid
  manifest_for := fun n =>
    match n with
    | some "max" => manifestMax
    | some "bad" => manifestBad
    | _ => manifestMin
  manifest_file_names := ["manifest_v1.json"]
  latest_downloaded_manifest_file := "manifest_v1.json"
  latest_manifest_file := "manifest_v1.json"
  list_all_downloaded_manifests := ["manifest_v1.json"]
  compare_manifests_fn := fun a b => a ++ b
  current_manifest := some "manifest_v1.json"

/-- A concrete cache oracle whose local files are all absent. -/
def cacheMissingW : CloudCache where
  file_id_column := "file_id"
  metadata_path := fun f => ⟨false, "local/" ++ f⟩
  data_path := fun fid => ⟨false, "data/" ++ fid⟩
  download_metadata := fun f => "dl/" ++ f
  download_data := fun fid => "dldata/" ++ fid
  manifest_for := fun _ => manifestMin
  manifest_file_names := ["manifest_v1.json"]
  latest_downloaded_manifest_file := "manifest_v1.json"
  latest_manifest_file := "manifest_v1.json"
  list_all_downloaded_manifests := ["manifest_v1.json"]
  compare_manifests_fn := fun a b => a ++ b
  current_manifest := some "manifest_v1.json"

/-- An api whose behavior-session table is empty and whose ecephys-session
table holds two duplicate rows for id 3. -/
def apiDupW : BehaviorEcephysProjectCloudApi :=
  ⟨cacheW, true, false, [], [⟨3, 1⟩, ⟨3, 2⟩], [], [], []⟩

/-- An api in local mode (as produced by `from_local_cache`, which passes
`local=True`). -/
def apiLocalW : BehaviorEcephysProjectCloudApi :=
  ⟨cacheW, true, true, [], [], [], [], []⟩

/-- A facade over the local-mode api. -/
def facadeLocalW : VisualBehaviorEcephysProjectCache :=
  ⟨.cloudApi apiLocalW, 2⟩

/-- An external fetch-api oracle standing for the default `fetch_api=None`
(every method access fails with AttributeError). -/
def extNoneW : ExternalFetchApi :=
  ⟨"NoneType", fun _ => .error .attributeError,
    fun _ => .error .attributeError, .error .attributeError,
    .error .attributeError, .error .attributeError, .error .attributeError,
    .error .attributeError⟩

/-- A facade whose fetch_api is not a BehaviorEcephysProjectCloudApi. -/
def facadeNoneW : VisualBehaviorEcephysProjectCache :=
  ⟨.externalApi extNoneW, 2⟩

/-- An api with the one-row joined tables of the C4 scenario and nonempty
probe/unit/channel frames. -/
def apiTablesW : BehaviorEcephysProjectCloudApi :=
  ⟨cacheW, true, false, [⟨5, 10⟩], [⟨10, 99⟩], [["p"]], [["u"]], [["c"]]⟩

/-- A facade over `apiTablesW`. -/
def facadeTablesW : VisualBehaviorEcephysProjectCache :=
  ⟨.cloudApi apiTablesW, 2⟩

/-
Theorems.
-/

open BehaviorEcephysProjectCloudApi

/-- C1: for every manifest with declared semantic version v, loading it via
load_manifest with version checking not skipped succeeds iff
0.1.0 <= v < 1.0.0 (half-open window; v = 0.1.0 succeeds, v = 1.0.0
fails), and on failure the version-mismatch error carries the manifest's
declared version and the expected range.  The manifest is assumed
otherwise well formed (five declared categories, an AllenSDK pipeline
entry) and the cache cloud-backed, so only the version gate decides. -/
theorem load_manifest_version_gate (cache : CloudCache)
    (mname : Option String) (ns : List String) (e : PipelineEntry)
    (rest : List PipelineEntry)
    (h1 : (cache.manifest_for mname).metadata_file_names = some ns)
    (h2 : sameSet ns expected_metadata = true)
    (h3 : (cache.manifest_for mname).data_pipeline.filter
        (fun i => i.name == "AllenSDK") = e :: rest) :
    ((∃ r, load_manifest cache false false mname = .ok r) ↔
      ((cache.manifest_for mname).version.lt MANIFEST_COMPATIBILITY.1
          = false ∧
        (cache.manifest_for mname).version.lt MANIFEST_COMPATIBILITY.2
          = true)) ∧
    (((cache.manifest_for mname).version.lt MANIFEST_COMPATIBILITY.1
          = true ∨
      (cache.manifest_for mname).version.lt MANIFEST_COMPATIBILITY.2
          = false) →
      load_manifest cache false false mname =
        .error (.versionMismatch ⟨(cache.manifest_for mname).version,
          MANIFEST_COMPATIBILITY.1, MANIFEST_COMPATIBILITY.2,
          e.version⟩)) := by
  by_cases hv : ((cache.manifest_for mname).version.lt
      MANIFEST_COMPATIBILITY.1 ||
      !((cache.manifest_for mname).version.lt
        MANIFEST_COMPATIBILITY.2)) = true
  · have hres : load_manifest cache false false mname =
        .error (.versionMismatch ⟨(cache.manifest_for mname).version,
          MANIFEST_COMPATIBILITY.1, MANIFEST_COMPATIBILITY.2,
          e.version⟩) := by
      simp only [load_manifest, h1, h2, h3, version_check, hv,
        Bool.not_true, if_false, if_true, ite_true, ite_false]
      simp [hv]
    constructor
    · rw [hres]
      constructor
      · rintro ⟨r, hr⟩
        exact Except.noConfusion hr
      · rintro ⟨ha, hb⟩
        rw [ha, hb] at hv
        simp at hv
    · intro _
      exact hres
  · have hres : load_manifest cache false false mname =
        .ok ⟨cache.download_metadata "sessions",
          cache.download_metadata "behavior_sessions",
          cache.download_metadata "units",
          cache.download_metadata "probes",
          cache.download_metadata "channels"⟩ := by
      simp only [load_manifest, h1, h2, h3, version_check,
        get_metadata_path]
      simp [hv]
    simp only [Bool.or_eq_true, Bool.not_eq_true', not_or] at hv
    obtain ⟨hv1, hv2⟩ := hv
    have ha : (cache.manifest_for mname).version.lt
        MANIFEST_COMPATIBILITY.1 = false := eq_false_of_ne_true hv1
    have hb : (cache.manifest_for mname).version.lt
        MANIFEST_COMPATIBILITY.2 = true := eq_true_of_ne_false hv2
    constructor
    · rw [hres]
      constructor
      · intro _
        exact ⟨ha, hb⟩
      · intro _
        exact ⟨_, rfl⟩
    · intro hcontra
      rcases hcontra with hc | hc
      · rw [ha] at hc
        exact Bool.noConfusion hc
      · rw [hb] at hc
        exact Bool.noConfusion hc

/-- C2: load_manifest succeeds only if the manifest's declared
metadata-category set equals exactly {behavior_sessions, sessions, probes,
units, channels}; a set differing from it (missing or extra categories)
fails with the invalid-manifest RuntimeError carrying both sets. -/
theorem load_manifest_metadata_exact (cache : CloudCache)
    (skip : Bool) (isLocal : Bool) (mname : Option String) (ns : List String)
    (h1 : (cache.manifest_for mname).metadata_file_names = some ns) :
    (sameSet ns expected_metadata = false →
      load_manifest cache skip isLocal mname =
        .error (.runtimeWrongMetadata expected_metadata ns)) ∧
    (∀ r, load_manifest cache skip isLocal mname = .ok r →
      sameSet ns expected_metadata = true) := by
  by_cases hs : sameSet ns expected_metadata = true
  · constructor
    · intro hfalse
      rw [hfalse] at hs
      exact Bool.noConfusion hs
    · intro _ _
      exact hs
  · rw [Bool.not_eq_true] at hs
    have hres : load_manifest cache skip isLocal mname =
        .error (.runtimeWrongMetadata expected_metadata ns) := by
      simp only [load_manifest, h1]
      simp [hs]
    constructor
    · intro _
      exact hres
    · intro r hr
      rw [hres] at hr
      exact Except.noConfusion hr

/-- C1 witness: loading `manifestMin` (version 0.1.0, the inclusive lower
bound) succeeds, and loading `manifestMax` (version 1.0.0, the exclusive
upper bound) fails with the version-mismatch error carrying 1.0.0 and the
range [0.1.0, 1.0.0). -/
theorem load_manifest_version_gate_witness :
    (∃ r, load_manifest cacheW false false none = .ok r) ∧
    load_manifest cacheW false false (some "max") =
      .error (.versionMismatch ⟨⟨1, 0, 0⟩, ⟨0, 1, 0⟩, ⟨1, 0, 0⟩,
        "2.13.2"⟩) := by
  constructor
  · exact (load_manifest_version_gate cacheW none expected_metadata
      ⟨"AllenSDK", "2.13.2"⟩ [] rfl (by decide) rfl).1.mpr (by decide)
  · exact (load_manifest_version_gate cacheW (some "max") expected_metadata
      ⟨"AllenSDK", "2.13.2"⟩ [] rfl (by decide) rfl).2 (by decide)

/-- C2 witness: a manifest declaring only four categories (no `channels`)
makes load_manifest fail with the invalid-manifest error carrying the
expected and the declared category sets. -/
theorem load_manifest_metadata_exact_witness :
    sameSet ["behavior_sessions", "sessions", "probes", "units"]
      expected_metadata = false ∧
    load_manifest cacheW true false (some "bad") =
      .error (.runtimeWrongMetadata expected_metadata
        ["behavior_sessions", "sessions", "probes", "units"]) := by
  constructor
  · decide
  · exact (load_manifest_metadata_exact cacheW true false (some "bad")
      ["behavior_sessions", "sessions", "probes", "units"] rfl).1 (by decide)

/-- C3: both identifier row-lookups fail with the IntegrityError
(RuntimeError) whenever the number of matching rows differs from one -
zero rows and two or more rows both fail with the count in the error -
and a session object is returned only when exactly one row matches. -/
theorem session_lookup_row_count_integrity
    (api : BehaviorEcephysProjectCloudApi) (i : Int) :
    (((api.behaviorRows i).length ≠ 1 →
        api.get_behavior_session i =
          .error (.integrityError "behavior_session_table" i
            (api.behaviorRows i).length)) ∧
      (∀ s, api.get_behavior_session i = .ok s →
        (api.behaviorRows i).length = 1)) ∧
    (((api.ecephysRows i).length ≠ 1 →
        api.get_ecephys_session i =
          .error (.integrityError "behavior_ecephys_session_table" i
            (api.ecephysRows i).length)) ∧
      (∀ s, api.get_ecephys_session i = .ok s →
        (api.ecephysRows i).length = 1)) := by
  constructor
  · constructor
    · intro hne
      rcases hb : api.behaviorRows i with _ | ⟨r, _ | ⟨r2, rs⟩⟩
      · simp [get_behavior_session, hb]
      · rw [hb] at hne
        exact absurd rfl hne
      · simp [get_behavior_session, hb]
    · intro s hs
      rcases hb : api.behaviorRows i with _ | ⟨r, _ | ⟨r2, rs⟩⟩
      · rw [get_behavior_session, hb] at hs
        exact Except.noConfusion hs
      · rfl
      · rw [get_behavior_session, hb] at hs
        exact Except.noConfusion hs
  · constructor
    · intro hne
      rcases hb : api.ecephysRows i with _ | ⟨r, _ | ⟨r2, rs⟩⟩
      · simp [get_ecephys_session, hb]
      · rw [hb] at hne
        exact absurd rfl hne
      · simp [get_ecephys_session, hb]
    · intro s hs
      rcases hb : api.ecephysRows i with _ | ⟨r, _ | ⟨r2, rs⟩⟩
      · rw [get_ecephys_session, hb] at hs
        exact Except.noConfusion hs
      · rfl
      · rw [get_ecephys_session, hb] at hs
        exact Except.noConfusion hs

/-- C3 witness: on `apiDupW`, id 7 matches zero behavior-session rows and
fails with count 0; id 3 matches two ecephys-session rows and fails with
count 2. -/
theorem session_lookup_row_count_integrity_witness :
    apiDupW.get_behavior_session 7 =
      .error (.integrityError "behavior_session_table" 7 0) ∧
    apiDupW.get_ecephys_session 3 =
      .error (.integrityError "behavior_ecephys_session_table" 3 2) := by
  constructor
  · exact (session_lookup_row_count_integrity apiDupW 7).1.1 (by decide)
  · exact (session_lookup_row_count_integrity apiDupW 3).2.1 (by decide)

/-- C4: with behavior-session table {behavior_session_id: 5,
ecephys_session_id: 10} and ecephys table {ecephys_session_id: 10,
file_id: 99}, get_behavior_session(5) joins through ecephys_session_id 10,
resolves file id "99" through the data-path resolver, and constructs the
session from the resolved path (in cloud mode, `download_data "99"`). -/
theorem get_behavior_session_join_resolves_file_id (cache : CloudCache)
    (skip : Bool) (pt ut ct : List (List String)) :
    BehaviorEcephysProjectCloudApi.get_behavior_session
      ⟨cache, skip, false, [⟨5, 10⟩], [⟨10, 99⟩], pt, ut, ct⟩ 5 =
      .ok (BehaviorSession.from_nwb_path (cache.download_data "99")) := by
  rfl

/-- C5: in local-only mode, a metadata or data resolution whose path
record says the file is absent fails with FileNotFoundError carrying the
expected local path, and the result of either resolution never depends on
the download oracles (no network call is made). -/
theorem local_mode_no_download (cache : CloudCache)
    (fname : String) (file_id : String) :
    ((cache.metadata_path fname).exists_ = false →
      get_metadata_path cache true fname =
        .error (.fileNotFound (cache.metadata_path fname).local_path)) ∧
    ((cache.data_path file_id).exists_ = false →
      get_data_path cache true file_id =
        .error (.fileNotFound (cache.data_path file_id).local_path)) ∧
    (∀ dm dd : String → String,
      get_metadata_path
        { cache with download_metadata := dm, download_data := dd }
        true fname = get_metadata_path cache true fname) ∧
    (∀ dm dd : String → String,
      get_data_path
        { cache with download_metadata := dm, download_data := dd }
        true file_id = get_data_path cache true file_id) := by
  refine ⟨fun h => ?_, fun h => ?_, fun dm dd => ?_, fun dm dd => ?_⟩
  · simp [get_metadata_path, get_local_path, h]
  · simp [get_data_path, get_local_path, h]
  · simp [get_metadata_path, get_local_path]
  · simp [get_data_path, get_local_path]

/-- C5 witness: on the all-absent local cache, resolving the `sessions`
metadata category fails naming `local/sessions`, and resolving data file
id 99 fails naming `data/99`. -/
theorem local_mode_no_download_witness :
    get_metadata_path cacheMissingW true "sessions" =
      .error (.fileNotFound "local/sessions") ∧
    get_data_path cacheMissingW true "99" =
      .error (.fileNotFound "data/99") := by
  constructor
  · exact (local_mode_no_download cacheMissingW "sessions" "99").1 rfl
  · exact (local_mode_no_download cacheMissingW "sessions" "99").2.1 rfl

/-- C6: `_get_local_path` requires exactly one of fname / file_id:
supplying neither fails with the ValueError "Must pass either fname or
file_id", supplying both fails with the ValueError "Must pass only one of
fname or file_id", and supplying exactly one proceeds to the path lookup
(it never produces a ValueError). -/
theorem get_local_path_argument_validation (cache : CloudCache)
    (f fid : String) :
    get_local_path cache none none =
      .error (.valueError "Must pass either fname or file_id") ∧
    get_local_path cache (some f) (some fid) =
      .error (.valueError "Must pass only one of fname or file_id") ∧
    (∀ msg, get_local_path cache (some f) none ≠
      .error (.valueError msg)) ∧
    (∀ msg, get_local_path cache none (some fid) ≠
      .error (.valueError msg)) := by
  refine ⟨rfl, rfl, fun msg h => ?_, fun msg h => ?_⟩
  · rw [get_local_path] at h
    rcases hm : (cache.metadata_path f).exists_ with _ | _ <;>
      simp [hm] at h
  · rw [get_local_path] at h
    rcases hm : (cache.data_path fid).exists_ with _ | _ <;>
      simp [hm] at h

/-- C6 witness: on the concrete cache, the neither-argument and
both-argument calls produce the two ValueErrors, and a single-argument
call resolves to the existing local path. -/
theorem get_local_path_argument_validation_witness :
    get_local_path cacheW none none =
      .error (.valueError "Must pass either fname or file_id") ∧
    get_local_path cacheW (some "sessions") (some "99") =
      .error (.valueError "Must pass only one of fname or file_id") ∧
    get_local_path cacheW (some "sessions") none = .ok "local/sessions" := by
  exact ⟨(get_local_path_argument_validation cacheW "sessions" "99").1,
    (get_local_path_argument_validation cacheW "sessions" "99").2.1, rfl⟩

/-- C7 counterexample: a facade built over a local-only backend (a
BehaviorEcephysProjectCloudApi with `local=True`, as `from_local_cache`
constructs) does NOT raise NotImplementedError from the manifest facade
operations: the isinstance guard passes and `list_manifest_file_names`
forwards to the cache, returning its manifest names. -/
theorem local_backend_not_implemented_counterexample :
    apiLocalW.isLocal = true ∧
    facadeLocalW.list_manifest_file_names = .ok ["manifest_v1.json"] ∧
    facadeLocalW.list_manifest_file_names ≠
      .error (.notImplemented "list_manifest_file_names"
        "BehaviorEcephysProjectCloudApi") := by
  refine ⟨rfl, rfl, fun h => ?_⟩
  rw [show facadeLocalW.list_manifest_file_names =
    .ok ["manifest_v1.json"] from rfl] at h
  exact Except.noConfusion h

/-- C7 (amended): the guard is a runtime type check, not a backend-mode
check: every manifest-management facade operation fails fast with a
NotImplementedError naming the offending method and the fetch_api's type
exactly when the facade's fetch_api is not an instance of
BehaviorEcephysProjectCloudApi (e.g. the default None or a LIMS-based
api); a local-only BehaviorEcephysProjectCloudApi backend passes the guard
and the operations forward to its cache. -/
theorem external_backend_not_implemented
    (c : VisualBehaviorEcephysProjectCache) (ext : ExternalFetchApi)
    (h : c.fetch_api = .externalApi ext) :
    c.construct_local_manifest =
      .error (.notImplemented "construct_local_manifest" ext.typeName) ∧
    (∀ m0 m1, c.compare_manifests m0 m1 =
      .error (.notImplemented "compare_manifests" ext.typeName)) ∧
    c.load_latest_manifest =
      .error (.notImplemented "load_latest_manifest" ext.typeName) ∧
    c.latest_downloaded_manifest_file =
      .error (.notImplemented "latest_downloaded_manifest_file"
        ext.typeName) ∧
    c.latest_manifest_file =
      .error (.notImplemented "latest_manifest_file" ext.typeName) ∧
    (∀ name, c.load_manifest name =
      .error (.notImplemented "load_manifest" ext.typeName)) ∧
    c.list_all_downloaded_manifests =
      .error (.notImplemented "list_all_downloaded_manifests"
        ext.typeName) ∧
    c.list_manifest_file_names =
      .error (.notImplemented "list_manifest_file_names" ext.typeName) ∧
    c.current_manifest =
      .error (.notImplemented "current_manifest" ext.typeName) := by
  refine ⟨?_, fun m0 m1 => ?_, ?_, ?_, ?_, fun name => ?_, ?_, ?_, ?_⟩ <;>
    simp [VisualBehaviorEcephysProjectCache.construct_local_manifest,
      VisualBehaviorEcephysProjectCache.compare_manifests,
      VisualBehaviorEcephysProjectCache.load_latest_manifest,
      VisualBehaviorEcephysProjectCache.latest_downloaded_manifest_file,
      VisualBehaviorEcephysProjectCache.latest_manifest_file,
      VisualBehaviorEcephysProjectCache.load_manifest,
      VisualBehaviorEcephysProjectCache.list_all_downloaded_manifests,
      VisualBehaviorEcephysProjectCache.list_manifest_file_names,
      VisualBehaviorEcephysProjectCache.current_manifest, h]

/-- C7 witness: on a facade whose fetch_api is not a
BehaviorEcephysProjectCloudApi (here standing for the default `None`),
construct_local_manifest and load_manifest fail with the
NotImplementedError naming the method and the backend type "NoneType". -/
theorem external_backend_not_implemented_witness :
    facadeNoneW.fetch_api = FetchApi.externalApi extNoneW ∧
    facadeNoneW.construct_local_manifest =
      .error (.notImplemented "construct_local_manifest" "NoneType") ∧
    facadeNoneW.load_manifest "m" =
      .error (.notImplemented "load_manifest" "NoneType") := by
  refine ⟨rfl, ?_, ?_⟩
  · exact (external_backend_not_implemented facadeNoneW extNoneW rfl).1
  · exact (external_backend_not_implemented facadeNoneW extNoneW
      rfl).2.2.2.2.2.1 "m"

/-- C8: the facade's stored fetch_tries count is never consulted by the
session fetch path: two facades over the same fetch_api that differ only
in fetch_tries produce identical results (the call_caching invocation is
passed no tries count at all). -/
theorem fetch_tries_unused (fa : FetchApi) (t1 t2 : Nat) (i : Int) :
    VisualBehaviorEcephysProjectCache.get_ecephys_session ⟨fa, t1⟩ i =
      VisualBehaviorEcephysProjectCache.get_ecephys_session ⟨fa, t2⟩ i ∧
    VisualBehaviorEcephysProjectCache.get_behavior_session ⟨fa, t1⟩ i =
      VisualBehaviorEcephysProjectCache.get_behavior_session ⟨fa, t2⟩ i :=
  ⟨rfl, rfl⟩

/-- C9: the facade session getters, which wrap the fetch in `call_caching`
with writing disabled and laziness disabled, return exactly the result of
calling the fetch api's getter directly (errors included). -/
theorem facade_session_fetch_direct_call
    (c : VisualBehaviorEcephysProjectCache) (i : Int) :
    c.get_ecephys_session i = c.fetch_api.get_ecephys_session i ∧
    c.get_behavior_session i = c.fetch_api.get_behavior_session i := by
  constructor
  · rw [VisualBehaviorEcephysProjectCache.get_ecephys_session]
    cases h : c.fetch_api.get_ecephys_session i <;>
      simp [call_caching, h]
  · rw [VisualBehaviorEcephysProjectCache.get_behavior_session]
    cases h : c.fetch_api.get_behavior_session i <;>
      simp [call_caching, h]

/-- C10: on a facade over a cloud api, the four table accessors return a
one-element tuple holding the fetch api's dataframe, while get_probe_table
calls the fetch api's get_probe_table but returns None, discarding the
table. -/
theorem facade_table_accessors_shape
    (c : VisualBehaviorEcephysProjectCache)
    (api : BehaviorEcephysProjectCloudApi)
    (h : c.fetch_api = .cloudApi api) :
    c.get_ecephys_session_table =
      .ok (.tuple1 api.ecephys_session_table) ∧
    c.get_behavior_session_table =
      .ok (.tuple1 api.behavior_session_table) ∧
    c.get_channel_table = .ok (.tuple1 api.channel_table) ∧
    c.get_unit_table = .ok (.tuple1 api.unit_table) ∧
    c.get_probe_table = .ok PyReturn.pyNone := by
  refine ⟨?_, ?_, ?_, ?_, ?_⟩ <;>
    simp [VisualBehaviorEcephysProjectCache.get_ecephys_session_table,
      VisualBehaviorEcephysProjectCache.get_behavior_session_table,
      VisualBehaviorEcephysProjectCache.get_channel_table,
      VisualBehaviorEcephysProjectCache.get_unit_table,
      VisualBehaviorEcephysProjectCache.get_probe_table,
      FetchApi.get_ecephys_session_table,
      FetchApi.get_behavior_session_table, FetchApi.get_channel_table,
      FetchApi.get_unit_table, FetchApi.get_probe_table,
      get_ecephys_session_table, get_behavior_session_table,
      get_channel_table, get_unit_table, get_probe_table, h,
      Except.map]

/-- C10 witness: on the concrete facade over `apiTablesW`, the four
accessors return the one-element tuples of its tables and get_probe_table
returns None. -/
theorem facade_table_accessors_shape_witness :
    facadeTablesW.get_ecephys_session_table =
      .ok (.tuple1 [⟨10, 99⟩]) ∧
    facadeTablesW.get_probe_table = .ok PyReturn.pyNone := by
  refine ⟨?_, ?_⟩
  · exact (facade_table_accessors_shape facadeTablesW apiTablesW rfl).1
  · exact (facade_table_accessors_shape facadeTablesW apiTablesW
      rfl).2.2.2.2

end AllenSDK
